import Mathlib

/-!
Shallow embedding of `src/filters/page_split/Task.cpp` (scantailor,
`page_split::Task::process`) together with spec-modelled collaborator
types, and theorems settling the claims about the cache-aware
page-split pipeline stage.
-/

namespace PageSplit

/-- Modelled from the spec: scanned image descriptor. `QImage` itself is not
under src/; the stage only consults its size and resolution (`Dpm`), while
the split-line collaborator may depend on pixel content, abstracted here as
a single `content` field. -/
structure Image where
  sizeW : Nat
  sizeH : Nat
  dpmX : Nat
  dpmY : Nat
  content : Nat
deriving DecidableEq, Repr

/-- Modelled from the spec: `ImageMetadata(size, Dpm(image))` — image size
plus resolution, as constructed in the `AUTO_DETECT` branch of
`Task::process`. -/
structure ImageMetadata where
  sizeW : Nat
  sizeH : Nat
  dpmX : Nat
  dpmY : Nat
deriving DecidableEq, Repr

/-- `Rule::LayoutType` from `Rule.h` (declaration visible through the
`switch` in `Task::process`): `AUTO_DETECT`, `SINGLE_PAGE`, `TWO_PAGES`. -/
inductive LayoutType where
  | AUTO_DETECT : LayoutType
  | SINGLE_PAGE : LayoutType
  | TWO_PAGES : LayoutType
deriving DecidableEq, Repr

/-- `AutoManualMode`: whether a stored layout was automatically computed or
user-set. -/
inductive AutoManualMode where
  | MODE_AUTO : AutoManualMode
  | MODE_MANUAL : AutoManualMode
deriving DecidableEq, Repr

/-- `AutoDetectedLayout` value recorded in the UI data only by the
`AUTO_DETECT` branch. -/
inductive AutoDetectedLayout where
  | SINGLE_PAGE : AutoDetectedLayout
  | TWO_PAGES : AutoDetectedLayout
deriving DecidableEq, Repr

/-- Modelled from the spec: `PageLayout` (PageLayout.h is not under src/).
It has a distinguished null/unset value and otherwise carries the split
geometry, exposing the number of logical sub-pages it implies (1 or 2). -/
inductive PageLayout where
  | null : PageLayout
  | split (numSub : Nat) (line : Int) : PageLayout
deriving DecidableEq, Repr

/-- `PageLayout::isNull()`: true exactly on the distinguished null value. -/
def PageLayout.isNull : PageLayout → Bool
  | .null => true
  | .split _ _ => false

/-- Modelled from the spec: `PageLayout::numSubPages()` — the number of
logical sub-pages the layout implies. The value on the null layout is not
specified; we pick 1, and no theorem depends on that choice. -/
def PageLayout.numSubPages : PageLayout → Nat
  | .null => 1
  | .split n _ => n

/-- Modelled from the spec: `Dependencies` (Dependencies.h is not under
src/): the cache fingerprint, derived from {image content/size,
pre-rotation, single-page-vs-two-pages intent}, exactly as constructed by
`Dependencies(data.image(), pre_rotation, single_page)` in
`Task::process`. -/
structure Dependencies where
  image : Image
  rotation : Nat
  singlePage : Bool
deriving DecidableEq, Repr

/-- Modelled from the spec: `Dependencies::matches(stored, mode)` — true iff
the fingerprint fields are identical to the stored fingerprint; the spec
leaves the exact participation of `mode` open, and field equality makes the
check mode-independent. -/
def Dependencies.matches (self other : Dependencies) (mode : AutoManualMode) : Bool :=
  self = other

/-- `Params` as stored per page: {PageLayout, Dependencies fingerprint,
mode}, matching the `Params(layout, deps, mode)` constructor call in
`Task::process`. -/
structure Params where
  pageLayout : PageLayout
  dependencies : Dependencies
  mode : AutoManualMode
deriving DecidableEq, Repr

/-- The UI-data bundle (`OptionsWidget::UiData`) populated by
`Task::process`: auto-detected layout class (set only by the `AUTO_DETECT`
branch, hence optional), the dependency fingerprint, the resolved layout and
the mode. -/
structure UiData where
  autoDetectedLayout : Option AutoDetectedLayout
  dependencies : Dependencies
  pageLayout : PageLayout
  mode : AutoManualMode
deriving DecidableEq, Repr

/-- The error kind relevant here: `Cancelled`, raised by
`TaskStatus::throwIfCancelled`. -/
inductive TaskCancelled where
  | cancelled : TaskCancelled
deriving DecidableEq, Repr

/-- The stage result: either the downstream stage's own result (delegation
with the resolved layout, returned verbatim) or the Terminal UI Result
(`Task::UiUpdater`) carrying the UI data. -/
inductive StageResult where
  | nextStage (layout : PageLayout) : StageResult
  | ui (uiData : UiData) : StageResult
deriving DecidableEq, Repr

/-- The layout carried forward by a stage result: the layout handed to the
downstream stage, or the one packaged into the Terminal UI Result. -/
def StageResult.carriedLayout : StageResult → PageLayout
  | .nextStage l => l
  | .ui u => u.pageLayout

/-- True exactly on a Terminal UI Result. -/
def StageResult.isUi : StageResult → Bool
  | .nextStage _ => false
  | .ui _ => true

/-- The collaborator-call trace of one `Task::process` invocation:
arguments of each `PageSplitFinder::findSplitLine` call, each
`Settings::setPageParams` call (image id and stored tuple), and each
`PageSequence::setLogicalPagesInImage` call (image id and count), in
order. -/
structure Events where
  findSplitLineArgs : List (Image × Nat × Nat × Bool)
  setPageParamsArgs : List (Nat × Params)
  setLogicalPagesArgs : List (Nat × Nat)
deriving DecidableEq, Repr

/-- The environment of one `Task::process` invocation: the task state
(image id, downstream-stage presence), the inputs read from `FilterData`,
the values the settings store returns for this page, the collaborator
functions, and the value the cancellation flag has at each of the two
checkpoints. -/
structure ProcessEnv where
  imageId : Nat
  image : Image
  preRotation : Nat
  bwThreshold : Nat
  rule : LayoutType
  storedParams : Option Params
  advise : ImageMetadata → Nat → Nat
  findSplitLine : Image → Nat → Nat → Bool → PageLayout
  hasNextTask : Bool
  cancelAtEntry : Bool
  cancelAfterFind : Bool

/-- The rule `switch` of `Task::process`: resolved `num_logical_pages`
value and the auto-detected layout recorded for the UI (only in the
`AUTO_DETECT` branch). The source assigns the boolean literals `true` and
`false` to the int `num_logical_pages` in the `SINGLE_PAGE` and
`TWO_PAGES` branches, which convert to 1 and 0. -/
def resolveStep (env : ProcessEnv) : Nat × Option AutoDetectedLayout :=
  match env.rule with
  | .AUTO_DETECT =>
      let metadata : ImageMetadata :=
        ⟨env.image.sizeW, env.image.sizeH, env.image.dpmX, env.image.dpmY⟩
      let n := env.advise metadata env.preRotation
      (n, some (if n == 1 then .SINGLE_PAGE else .TWO_PAGES))
  | .SINGLE_PAGE => (1, none)
  | .TWO_PAGES => (0, none)

/-- The `num_logical_pages` value after the rule `switch`. -/
def numLogicalPages (env : ProcessEnv) : Nat :=
  (resolveStep env).1

/-- `single_page = (num_logical_pages == 1)`. -/
def singlePageFlag (env : ProcessEnv) : Bool :=
  numLogicalPages env == 1

/-- `Dependencies deps(data.image(), pre_rotation, single_page)`: the
freshly derived fingerprint. -/
def derivedDeps (env : ProcessEnv) : Dependencies :=
  ⟨env.image, env.preRotation, singlePageFlag env⟩

/-- The `mode` local after the cache lookup: `MODE_AUTO` unless stored
params exist, in which case the stored mode. -/
def storedMode (env : ProcessEnv) : AutoManualMode :=
  match env.storedParams with
  | some p => p.mode
  | none => .MODE_AUTO

/-- The `layout` local after the cache lookup: the stored layout when
stored params exist and the fresh fingerprint matches the stored one under
the stored mode, otherwise still null. -/
def cachedLayout (env : ProcessEnv) : PageLayout :=
  match env.storedParams with
  | some p =>
      if (derivedDeps env).matches p.dependencies p.mode then p.pageLayout
      else .null
  | none => .null

/-- The layout `PageSplitFinder::findSplitLine` returns on the miss path,
for the arguments `Task::process` passes it. -/
def freshLayout (env : ProcessEnv) : PageLayout :=
  env.findSplitLine env.image env.preRotation env.bwThreshold (singlePageFlag env)

/-- The layout the decision logic resolves: the cached one on a hit,
otherwise the freshly computed one. -/
def decidedLayout (env : ProcessEnv) : PageLayout :=
  if (cachedLayout env).isNull then freshLayout env else cachedLayout env

/-- The cache-miss trigger of `Task::process` restricted to fingerprint
staleness: no stored params, or a stored fingerprint that does not match
the freshly derived one under the stored mode. -/
def fingerprintMiss (env : ProcessEnv) : Bool :=
  match env.storedParams with
  | none => true
  | some p => !((derivedDeps env).matches p.dependencies p.mode)

/-- `Task::process` from src/filters/page_split/Task.cpp, as a pure
function from the invocation environment to the collaborator-call trace and
the outcome. Mirrors the source statement by statement: entry
`throwIfCancelled`; the rule `switch`; fingerprint derivation; cache
lookup; on a null layout the `findSplitLine` call, the `setPageParams`
write and then (in this order, as in the source) the second
`throwIfCancelled`; `setLogicalPagesInImage` with the layout's sub-page
count; and the dispatch to the downstream stage or the Terminal UI
Result. -/
def process (env : ProcessEnv) : Events × Except TaskCancelled StageResult :=
  if env.cancelAtEntry then
    (⟨[], [], []⟩, .error .cancelled)
  else
    let deps := derivedDeps env
    let mode := storedMode env
    let layout0 := cachedLayout env
    let uiData0 : UiData :=
      ⟨(resolveStep env).2, deps, .null, .MODE_AUTO⟩
    if layout0.isNull then
      let layout := freshLayout env
      let newParams : Params := ⟨layout, deps, mode⟩
      let ev : Events :=
        ⟨[(env.image, env.preRotation, env.bwThreshold, singlePageFlag env)],
         [(env.imageId, newParams)], []⟩
      if env.cancelAfterFind then
        (ev, .error .cancelled)
      else
        let ui : UiData := { uiData0 with pageLayout := layout, mode := mode }
        ({ ev with setLogicalPagesArgs := [(env.imageId, layout.numSubPages)] },
         .ok (if env.hasNextTask then .nextStage layout else .ui ui))
    else
      let ui : UiData := { uiData0 with pageLayout := layout0, mode := mode }
      (⟨[], [], [(env.imageId, layout0.numSubPages)]⟩,
       .ok (if env.hasNextTask then .nextStage layout0 else .ui ui))

/-! Concrete sample environments used by witnesses and counterexamples. -/

/-- A sample image. -/
def imgA : Image := ⟨100, 200, 300, 300, 5⟩

/-- A sample page-count advisory collaborator that always advises 1. -/
def adviseOne : ImageMetadata → Nat → Nat := fun _ _ => 1

/-- A sample split-line collaborator that always returns a two-sub-page
layout (in particular, never the null layout). -/
def findA : Image → Nat → Nat → Bool → PageLayout := fun _ _ _ _ => .split 2 7

/-- A base invocation environment: no stored params, `SINGLE_PAGE` rule, no
downstream stage, no cancellation. -/
def envBase : ProcessEnv :=
  ⟨42, imgA, 0, 128, .SINGLE_PAGE, none, adviseOne, findA, false, false, false⟩

/-- Stored params whose fingerprint matches what `envBase` freshly derives
and whose stored layout is non-null, with a manually set mode. -/
def pHit : Params := ⟨.split 2 7, ⟨imgA, 0, true⟩, .MODE_MANUAL⟩

/-- Stored params whose fingerprint matches what `envBase` freshly derives
but whose stored layout is the null layout. -/
def pNull : Params := ⟨.null, ⟨imgA, 0, true⟩, .MODE_MANUAL⟩

/-- Stored params whose fingerprint (rotation field) does not match what
`envBase` freshly derives, with a manually set mode. -/
def pMis : Params := ⟨.split 2 7, ⟨imgA, 3, true⟩, .MODE_MANUAL⟩

/-- `envBase` with cancellation requested at the point of the second
checkpoint (i.e. during the expensive recomputation). -/
def envCancelAfter : ProcessEnv := { envBase with cancelAfterFind := true }

/-- `envBase` with cancellation already requested at stage entry. -/
def envCancelEntry : ProcessEnv := { envBase with cancelAtEntry := true }

/-- `envBase` with the `TWO_PAGES` rule. -/
def envTwoPages : ProcessEnv := { envBase with rule := .TWO_PAGES }

/-- `envBase` with matching, non-null stored params. -/
def envHit : ProcessEnv := { envBase with storedParams := some pHit }

/-- `envBase` with matching stored params whose layout is null. -/
def envHitNull : ProcessEnv := { envBase with storedParams := some pNull }

/-- `envBase` with mismatching stored params. -/
def envMis : ProcessEnv := { envBase with storedParams := some pMis }

/-- `envBase` with a downstream stage configured. -/
def envNext : ProcessEnv := { envBase with hasNextTask := true }

/-! Theorems settling the claims. -/

/-- C6: if cancellation is already requested at the stage-entry checkpoint,
`Task::process` fails with Cancelled and performs no side effect at all: no
`findSplitLine` call, no `setPageParams` write, no `setLogicalPagesInImage`
update, and no result (neither downstream dispatch nor Terminal UI Result)
is produced. -/
theorem cancel_at_entry_aborts_cleanly (env : ProcessEnv)
    (h : env.cancelAtEntry = true) :
    process env = (⟨[], [], []⟩, .error .cancelled) := by
  simp [process, h]

/-- Witness for C6 at a concrete environment. -/
theorem cancel_at_entry_aborts_cleanly_witness :
    process envCancelEntry = (⟨[], [], []⟩, .error .cancelled) :=
  cancel_at_entry_aborts_cleanly envCancelEntry rfl

/-- C2 (amended): when stored params exist, their fingerprint matches the
freshly derived dependencies under the stored mode, and the stored layout
is non-null, `Task::process` does not invoke `findSplitLine`, writes
nothing to the store, and carries the stored layout forward verbatim (to
the downstream stage, or into the Terminal UI Result together with the
stored mode). -/
theorem cache_hit_skips_recompute (env : ProcessEnv) (p : Params)
    (h1 : env.cancelAtEntry = false)
    (h2 : env.storedParams = some p)
    (h3 : (derivedDeps env).matches p.dependencies p.mode = true)
    (h4 : p.pageLayout.isNull = false) :
    (process env).1.findSplitLineArgs = [] ∧
    (process env).1.setPageParamsArgs = [] ∧
    (process env).2 = .ok (if env.hasNextTask then .nextStage p.pageLayout
      else .ui ⟨(resolveStep env).2, derivedDeps env, p.pageLayout, p.mode⟩) := by
  have hc : cachedLayout env = p.pageLayout := by
    simp [cachedLayout, h2, h3]
  have hm : storedMode env = p.mode := by
    simp [storedMode, h2]
  simp [process, h1, hc, hm, h4]

/-- Witness for C2 (amended) at a concrete environment. -/
theorem cache_hit_skips_recompute_witness :
    (process envHit).1.findSplitLineArgs = [] ∧
    (process envHit).1.setPageParamsArgs = [] ∧
    (process envHit).2 = .ok (if envHit.hasNextTask then .nextStage pHit.pageLayout
      else .ui ⟨(resolveStep envHit).2, derivedDeps envHit, pHit.pageLayout,
        pHit.mode⟩) :=
  cache_hit_skips_recompute envHit pHit rfl rfl (by decide) rfl

/-- C2 counterexample: an invocation whose stored params exist with a
matching fingerprint (under the stored mode) on which `Task::process`
nevertheless invokes `findSplitLine` and writes to the store — because the
stored layout is null. This falsifies the claim as stated. -/
theorem cache_hit_claim_counterexample :
    (envHitNull.storedParams = some pNull ∧
     (derivedDeps envHitNull).matches pNull.dependencies pNull.mode = true ∧
     envHitNull.cancelAtEntry = false) ∧
    (process envHitNull).1.findSplitLineArgs ≠ [] ∧
    (process envHitNull).1.setPageParamsArgs ≠ [] := by
  decide

/-- C3: with no stored params for the page, or stored params whose
fingerprint does not match the freshly derived dependencies,
`Task::process` invokes `findSplitLine` exactly once (with the image,
pre-rotation, threshold and single-page flag), and the store receives
exactly one `setPageParams` call whose stored tuple holds the freshly
computed layout and a fingerprint that a re-derivation from the same inputs
matches. -/
theorem cache_miss_one_recompute_one_write (env : ProcessEnv)
    (h1 : env.cancelAtEntry = false)
    (h2 : fingerprintMiss env = true) :
    (process env).1.findSplitLineArgs =
      [(env.image, env.preRotation, env.bwThreshold, singlePageFlag env)] ∧
    (process env).1.setPageParamsArgs =
      [(env.imageId, ⟨freshLayout env, derivedDeps env, storedMode env⟩)] ∧
    (derivedDeps env).matches (derivedDeps env) (storedMode env) = true := by
  have hc : cachedLayout env = .null := by
    unfold fingerprintMiss at h2
    unfold cachedLayout
    cases h : env.storedParams with
    | none => rfl
    | some p =>
        rw [h] at h2
        simp only [Bool.not_eq_true'] at h2
        simp [h2]
  refine ⟨?_, ?_, ?_⟩ <;>
    simp [process, h1, hc, PageLayout.isNull, Dependencies.matches] <;>
    split <;> rfl

/-- Witness for C3 at a concrete environment (no stored params). -/
theorem cache_miss_one_recompute_one_write_witness :
    (process envBase).1.findSplitLineArgs =
      [(envBase.image, envBase.preRotation, envBase.bwThreshold,
        singlePageFlag envBase)] ∧
    (process envBase).1.setPageParamsArgs =
      [(envBase.imageId,
        ⟨freshLayout envBase, derivedDeps envBase, storedMode envBase⟩)] ∧
    (derivedDeps envBase).matches (derivedDeps envBase) (storedMode envBase)
      = true :=
  cache_miss_one_recompute_one_write envBase rfl rfl

/-- C9: on the cache-miss path (the layout is still null after the cache
lookup), the mode in the stored tuple written by `setPageParams`, and the
mode placed in the UI data when a Terminal UI Result is produced, is the
previously stored mode when stored params existed (even with a mismatched
fingerprint) and MODE_AUTO when none existed. -/
theorem miss_preserves_stored_mode (env : ProcessEnv)
    (h1 : env.cancelAtEntry = false)
    (h2 : (cachedLayout env).isNull = true) :
    ((process env).1.setPageParamsArgs.map (fun x => x.2.mode)) =
      [match env.storedParams with
       | some p => p.mode
       | none => AutoManualMode.MODE_AUTO] ∧
    (∀ u, (process env).2 = Except.ok (.ui u) →
      u.mode = match env.storedParams with
               | some p => p.mode
               | none => AutoManualMode.MODE_AUTO) := by
  have hm : storedMode env =
      match env.storedParams with
      | some p => p.mode
      | none => AutoManualMode.MODE_AUTO := rfl
  constructor
  · simp [process, h1, h2, ← hm]
    split <;> rfl
  · intro u hu
    rw [← hm]
    by_cases h3 : env.cancelAfterFind
    · simp [process, h1, h2, h3] at hu
    · simp [process, h1, h2, h3] at hu
      cases hN : env.hasNextTask <;> rw [hN] at hu <;> simp at hu
      rw [← hu]

/-- Witness for C9 at a concrete environment with mismatched stored params
carrying MODE_MANUAL. -/
theorem miss_preserves_stored_mode_witness :
    ((process envMis).1.setPageParamsArgs.map (fun x => x.2.mode)) =
      [match envMis.storedParams with
       | some p => p.mode
       | none => AutoManualMode.MODE_AUTO] ∧
    (∀ u, (process envMis).2 = Except.ok (.ui u) →
      u.mode = match envMis.storedParams with
               | some p => p.mode
               | none => AutoManualMode.MODE_AUTO) :=
  miss_preserves_stored_mode envMis rfl (by decide)

/-- C10: when stored params exist whose fingerprint matches the freshly
derived dependencies under the stored mode but whose stored layout is the
null layout, the hit is not honored: `findSplitLine` is still invoked and
the store entry is overwritten with the freshly computed layout. -/
theorem null_stored_layout_forces_recompute (env : ProcessEnv) (p : Params)
    (h1 : env.cancelAtEntry = false)
    (h2 : env.storedParams = some p)
    (h3 : (derivedDeps env).matches p.dependencies p.mode = true)
    (h4 : p.pageLayout.isNull = true) :
    (process env).1.findSplitLineArgs.length = 1 ∧
    (process env).1.setPageParamsArgs =
      [(env.imageId, ⟨freshLayout env, derivedDeps env, p.mode⟩)] := by
  have hc : cachedLayout env = p.pageLayout := by
    simp [cachedLayout, h2, h3]
  have hm : storedMode env = p.mode := by
    simp [storedMode, h2]
  constructor <;>
    simp [process, h1, hc, hm, h4] <;>
    split <;> rfl

/-- Witness for C10 at a concrete environment with a matching, null-layout
store entry. -/
theorem null_stored_layout_forces_recompute_witness :
    (process envHitNull).1.findSplitLineArgs.length = 1 ∧
    (process envHitNull).1.setPageParamsArgs =
      [(envHitNull.imageId,
        ⟨freshLayout envHitNull, derivedDeps envHitNull, pNull.mode⟩)] :=
  null_stored_layout_forces_recompute envHitNull pNull rfl rfl (by decide) rfl

/-- C5: on every invocation of `Task::process` that completes successfully
(cache hit or miss), `setLogicalPagesInImage` is called exactly once, with
the page's image id and the sub-page count of the layout carried forward in
the result. -/
theorem page_count_propagated_every_call (env : ProcessEnv) (r : StageResult)
    (h : (process env).2 = Except.ok r) :
    (process env).1.setLogicalPagesArgs =
      [(env.imageId, r.carriedLayout.numSubPages)] := by
  by_cases h1 : env.cancelAtEntry
  · simp [process, h1] at h
  · by_cases h2 : (cachedLayout env).isNull
    · by_cases h3 : env.cancelAfterFind
      · simp [process, h1, h2, h3] at h
      · simp [process, h1, h2, h3] at h ⊢
        cases hN : env.hasNextTask <;> rw [hN] at h <;> simp at h <;>
          rw [← h] <;> rfl
    · simp [process, h1, h2] at h ⊢
      cases hN : env.hasNextTask <;> rw [hN] at h <;> simp at h <;>
        rw [← h] <;> rfl

/-- Witness for C5 at a concrete environment with a downstream stage. -/
theorem page_count_propagated_every_call_witness :
    (process envNext).1.setLogicalPagesArgs =
      [(envNext.imageId,
        (StageResult.nextStage (PageLayout.split 2 7)).carriedLayout.numSubPages)] :=
  page_count_propagated_every_call envNext
    (.nextStage (.split 2 7)) rfl

/-- C7: the terminal action of a successful `Task::process` invocation is
mutually exclusive: with a downstream stage configured, the result is the
downstream stage's own result carrying the resolved layout (no Terminal UI
Result is constructed); without one, the result is a Terminal UI Result
carrying the layout the decision logic resolved. -/
theorem terminal_dispatch_exclusive (env : ProcessEnv) (r : StageResult)
    (h : (process env).2 = Except.ok r) :
    (env.hasNextTask = true → r = .nextStage (decidedLayout env)) ∧
    (env.hasNextTask = false →
      r.isUi = true ∧ r.carriedLayout = decidedLayout env) := by
  by_cases h1 : env.cancelAtEntry
  · simp [process, h1] at h
  · by_cases h2 : (cachedLayout env).isNull
    · by_cases h3 : env.cancelAfterFind
      · simp [process, h1, h2, h3] at h
      · simp [process, h1, h2, h3] at h
        cases hN : env.hasNextTask <;> rw [hN] at h <;> simp at h <;>
          rw [← h] <;> simp [hN, decidedLayout, h2, StageResult.isUi,
            StageResult.carriedLayout]
    · simp [process, h1, h2] at h
      cases hN : env.hasNextTask <;> rw [hN] at h <;> simp at h <;>
        rw [← h] <;> simp [hN, decidedLayout, h2, StageResult.isUi,
          StageResult.carriedLayout]

/-- Witness for C7 at a concrete environment with a downstream stage. -/
theorem terminal_dispatch_exclusive_witness :
    (envNext.hasNextTask = true →
      StageResult.nextStage (PageLayout.split 2 7) =
        .nextStage (decidedLayout envNext)) ∧
    (envNext.hasNextTask = false →
      (StageResult.nextStage (PageLayout.split 2 7)).isUi = true ∧
      (StageResult.nextStage (PageLayout.split 2 7)).carriedLayout =
        decidedLayout envNext) :=
  terminal_dispatch_exclusive envNext (.nextStage (.split 2 7)) rfl

/-- C8: assuming the `findSplitLine` collaborator never returns the null
layout, a successful `Task::process` invocation never carries the null
layout forward (downstream or into the Terminal UI Result): whenever the
layout is still null after the cache lookup, the miss path recomputes it
before any dispatch. -/
theorem no_null_layout_dispatched (env : ProcessEnv) (r : StageResult)
    (hf : ∀ img rot t s, (env.findSplitLine img rot t s).isNull = false)
    (h : (process env).2 = Except.ok r) :
    r.carriedLayout.isNull = false := by
  have hfresh : (freshLayout env).isNull = false :=
    hf env.image env.preRotation env.bwThreshold (singlePageFlag env)
  by_cases h1 : env.cancelAtEntry
  · simp [process, h1] at h
  · by_cases h2 : (cachedLayout env).isNull
    · by_cases h3 : env.cancelAfterFind
      · simp [process, h1, h2, h3] at h
      · simp [process, h1, h2, h3] at h
        cases hN : env.hasNextTask <;> rw [hN] at h <;> simp at h <;>
          rw [← h] <;> simpa [StageResult.carriedLayout] using hfresh
    · simp [process, h1, h2] at h
      cases hN : env.hasNextTask <;> rw [hN] at h <;> simp at h <;>
        rw [← h] <;> simpa [StageResult.carriedLayout] using h2

/-- Witness for C8 at a concrete environment whose `findSplitLine`
collaborator always returns a non-null layout. -/
theorem no_null_layout_dispatched_witness :
    (StageResult.nextStage (PageLayout.split 2 7)).carriedLayout.isNull
      = false :=
  no_null_layout_dispatched envNext (.nextStage (.split 2 7))
    (fun _ _ _ _ => rfl) rfl

/-- C1 (code behavior at the failing input): on a cache-miss invocation in
which cancellation is requested during the recomputation (so the second
checkpoint fires), `Task::process` does fail with Cancelled and does skip
the `setLogicalPagesInImage` update, but the `setPageParams` write has
already happened: the source calls `setPageParams` before the second
`throwIfCancelled`, so the store is mutated, contradicting the claim. -/
theorem persist_precedes_second_checkpoint :
    (process envCancelAfter).2 = Except.error .cancelled ∧
    (process envCancelAfter).1.setPageParamsArgs =
      [(envCancelAfter.imageId,
        ⟨freshLayout envCancelAfter, derivedDeps envCancelAfter,
         .MODE_AUTO⟩)] ∧
    (process envCancelAfter).1.setLogicalPagesArgs = [] :=
  ⟨rfl, rfl, rfl⟩

/-- C4 (code behavior at the failing input): under the `TWO_PAGES` rule the
source assigns the boolean literal `false` to the int `num_logical_pages`,
so the resolved logical-page count is 0, not the 2 the claim states; the
only consumer is the comparison `num_logical_pages == 1`, so the single-page
flag still comes out false. -/
theorem two_pages_rule_yields_zero :
    numLogicalPages envTwoPages = 0 ∧
    numLogicalPages envTwoPages ≠ 2 ∧
    singlePageFlag envTwoPages = false := by
  decide

end PageSplit
